import Mathlib

/-!
Verification development for the TuneScape 3D music gallery
(`components/MusicSpace.tsx` and friends).

The definitions below are a shallow embedding of the TypeScript source:
JavaScript numbers are modelled as `ℚ` where the code only uses field
arithmetic, comparisons and `Math.max`/`Math.min`/`Math.abs`/`Math.floor`,
and as `ℝ` where trigonometric functions (`Math.sin`, `Math.cos`,
`Math.acos`, `Math.sqrt`, `Math.PI`) occur.  JavaScript strings are
modelled as `List Char`.  Each definition cites the source lines it
embeds.
-/

namespace TuneScape

/-- Media item, from `types.ts` (`Song` interface): id, title, artist,
album, cover URL, audio URL, duration in seconds, genre. -/
structure Song where
  id : String
  title : List Char
  artist : List Char
  album : String
  coverUrl : String
  duration : ℚ
  genre : String
deriving DecidableEq, Repr

/-! ## SpatialLayoutEngine (MusicSpace.tsx, card placement in the build loop)

Source:
```
const phi = Math.acos(-1 + (2 * idx) / songs.length);
const theta = Math.sqrt(songs.length * Math.PI) * phi;
const radius = 35 + (idx % 3) * 8; // Multi-layered depth
group.position.set(
  radius * Math.cos(theta) * Math.sin(phi),
  radius * Math.sin(theta) * Math.sin(phi),
  radius * Math.cos(phi)
);
```
-/

/-- Polar angle of card `i` among `N` cards: `acos(-1 + 2*i/N)`. -/
noncomputable def layoutPhi (N i : ℕ) : ℝ :=
  Real.arccos (-1 + (2 * (i : ℝ)) / (N : ℝ))

/-- Azimuth of card `i` among `N` cards: `sqrt(N*π) * φ`. -/
noncomputable def layoutTheta (N i : ℕ) : ℝ :=
  Real.sqrt ((N : ℝ) * Real.pi) * layoutPhi N i

/-- Shell radius of card `i`: `35 + (i % 3) * 8`. -/
def layoutRadius (i : ℕ) : ℚ := 35 + (i % 3 : ℕ) * 8

/-- Position assigned to card `i` at scene build, as an `(x, y, z)` triple. -/
noncomputable def cardPosition (N i : ℕ) : ℝ × ℝ × ℝ :=
  ((layoutRadius i : ℝ) * Real.cos (layoutTheta N i) * Real.sin (layoutPhi N i),
   (layoutRadius i : ℝ) * Real.sin (layoutTheta N i) * Real.sin (layoutPhi N i),
   (layoutRadius i : ℝ) * Real.cos (layoutPhi N i))

/-! ## Playback progress fallback (MusicSpace.tsx, playback-update effect)

Source: `const progress = currentTime / (c.song.duration || 100);` —
`x || 100` on a JavaScript number yields `100` exactly when `x` is falsy,
i.e. `0` (or `NaN`, which `ℚ` does not represent). -/

/-- Divisor used for the progress fraction: the song duration, with `100`
substituted when the duration is `0` (falsy). -/
def progressDivisor (duration : ℚ) : ℚ := if duration = 0 then 100 else duration

/-- Progress fraction pushed to the renderer for the active card. -/
def playbackProgress (currentTime duration : ℚ) : ℚ :=
  currentTime / progressDivisor duration

/-! ## Zoom control (MusicSpace.tsx, `onWheel` and `onTouchMove` pinch branch)

Wheel source:
```
const distanceMultiplier = Math.max(0.8, Math.min(2.5, currentDistance / 50));
const zoomDelta = e.deltaY * 0.12 * distanceMultiplier;
sceneRef.current.targetZoom = Math.max(10, Math.min(300, sceneRef.current.targetZoom + zoomDelta));
```
Pinch source (`rawDelta` stands for `touchStartDistance - currentDistance`):
```
const zoomDelta = (touchStartDistance - currentDistance) * 0.5;
sceneRef.current.targetZoom = Math.max(15, Math.min(250, sceneRef.current.targetZoom + zoomDelta));
```
-/

/-- Adaptive multiplier used by the wheel branch. -/
def distanceMultiplier (z : ℚ) : ℚ := max (8/10) (min (5/2) (z / 50))

/-- One wheel tick: `z` is the current `targetZoom`, `deltaY` the raw wheel delta. -/
def wheelZoomStep (z deltaY : ℚ) : ℚ :=
  max 10 (min 300 (z + deltaY * (12/100) * distanceMultiplier z))

/-- One pinch step: `z` is the current `targetZoom`, `rawDelta` the pinch
distance delta `touchStartDistance - currentDistance`.  Note the absence of
`distanceMultiplier` in the source. -/
def touchZoomStep (z rawDelta : ℚ) : ℚ :=
  max 15 (min 250 (z + rawDelta * (1/2)))

/-- Modelled from the spec claim, not the source: the pinch step the claim
asserts, namely `rawDelta × baseFactor × clamp(z/50, 0.8, 2.5)` followed by
the touch clamp `[15, 250]`, with the pinch base factor `0.5`. -/
def claimedTouchZoomStep (z rawDelta : ℚ) : ℚ :=
  max 15 (min 250 (z + rawDelta * (1/2) * distanceMultiplier z))

/-! ## CardTextureRenderer (MusicSpace.tsx, `drawPlayerCanvas`)

The canvas is created with `canvas.width = 512; canvas.height = 760`.
Layout constants from the source: `padding = 18`, `displayWidth = w - padding*2
= 476`, `maxTitleWidth = displayWidth - 10 = 466`, `progressBarWidth =
displayWidth = 476`.  Text measurement (`ctx.measureText(s).width`) depends on
the ambient font rasteriser, so the model is parametrised by a measure
function `m : List Char → ℚ`. -/

/-- Ellipsis appended by the truncation loops (`'...'`). -/
def ell : List Char := ['.', '.', '.']

/-- Truncation loop from `drawPlayerCanvas`:
`while (ctx.measureText(t + '...').width > maxTitleWidth && t.length > 0)
t = t.slice(0, -1);`.  Each iteration drops one trailing character, so the
loop runs at most `t.length` times; `fuel` is instantiated with `t.length`,
making the recursion structural while computing the same result. -/
def truncLoop (m : List Char → ℚ) (maxW : ℚ) : ℕ → List Char → List Char
  | 0, t => t
  | fuel + 1, t =>
      if maxW < m (t ++ ell) ∧ t ≠ [] then truncLoop m maxW fuel t.dropLast else t

/-- Full truncation of a drawn string: left unchanged when it fits
(`metrics.width > maxTitleWidth` is false), otherwise shortened by
`truncLoop` and suffixed with `'...'`. -/
def truncateText (m : List Char → ℚ) (maxW : ℚ) (s : List Char) : List Char :=
  if maxW < m s then truncLoop m maxW s.length s ++ ell else s

/-- Observable content of the raster `drawPlayerCanvas` produces.  Gradients,
borders and glyph coordinates are fixed constants in the source and are not
tracked; the fields below are the ones the specification's claims are about.
`datasetPlaying` models `canvas.dataset.playing`, which `drawPlayerCanvas`
never assigns (the DOM default is the absent value, read back as not-`true`). -/
structure CardCanvas where
  width : ℕ
  height : ℕ
  title : List Char
  artist : List Char
  /-- width of the progress-fill rect when it is drawn, `none` when not -/
  progressFillWidth : Option ℚ
  activeFlag : Bool
  playingFlag : Bool
  /-- whether the centre glyph is the pause glyph (`active && playing`) -/
  playIconPause : Bool
  datasetPlaying : Bool
  /-- seconds rendered in the left time label: `song.duration * progress` -/
  leftTimeSeconds : ℚ
  /-- seconds rendered in the right label: `song.duration * (1 - progress)` -/
  rightTimeSeconds : ℚ
deriving DecidableEq, Repr

/-- Track width of the progress bar: `progressBarWidth = displayWidth = 476`. -/
def progressBarWidth : ℚ := 476

/-- Maximum drawn text width: `maxTitleWidth = displayWidth - 10 = 466`. -/
def maxTitleWidth : ℚ := 466

/-- Shallow embedding of `drawPlayerCanvas(song, active, playing, progress)`.
The fill rect is drawn only under `if (active && progress > 0)`, with width
`progressBarWidth * progress` — the source applies no clamping to `progress`. -/
def drawPlayerCanvas (m : List Char → ℚ) (song : Song) (active playing : Bool)
    (progress : ℚ) : CardCanvas where
  width := 512
  height := 760
  title := truncateText m maxTitleWidth song.title
  artist := truncateText m maxTitleWidth song.artist
  progressFillWidth :=
    if active = true ∧ 0 < progress then some (progressBarWidth * progress) else none
  activeFlag := active
  playingFlag := playing
  playIconPause := active && playing
  datasetPlaying := false
  leftTimeSeconds := song.duration * progress
  rightTimeSeconds := song.duration * (1 - progress)

/-! ## UpdateScheduler (MusicSpace.tsx, playback-update `useEffect`)

Source body:
```
const timeDiff = Math.abs(currentTime - lastTimeRef.current);
const shouldUpdateTime = timeDiff >= 0.5;
sceneRef.current.cards.forEach(c => {
  const isCurrent = c.song.id === currentSong.id;
  if (isCurrent && (shouldUpdateTime || timeDiff === 0)) {
    const progress = currentTime / (c.song.duration || 100);
    const canvas = drawPlayerCanvas(c.song, true, isPlaying, progress);
    c.texture.image = canvas; ...
  } else if (!isCurrent && c.texture.image) {
    const wasPlaying = (c.texture.image as HTMLCanvasElement).dataset?.playing === 'true';
    if (wasPlaying) { const canvas = drawPlayerCanvas(c.song, false, false, 0); ... }
  }
});
if (shouldUpdateTime) { lastTimeRef.current = currentTime; }
```
-/

/-- One card entity as the scheduler sees it: its song and the raster
currently bound to its texture (`c.texture.image`). -/
structure Card where
  song : Song
  texture : Option CardCanvas
deriving DecidableEq, Repr

/-- Playback state pushed by the caller: `{currentItemId, isPlaying, currentTime}`. -/
structure PlaybackInput where
  currentSongId : String
  isPlaying : Bool
  currentTime : ℚ
deriving DecidableEq, Repr

/-- Scheduler state: the card list plus `lastTimeRef.current`. -/
structure SchedulerState where
  cards : List Card
  lastTime : ℚ
deriving DecidableEq, Repr

/-- How one card reacts to a pushed playback update (the `forEach` body). -/
def playbackCardStep (m : List Char → ℚ) (inp : PlaybackInput)
    (shouldUpdateTime : Bool) (timeDiff : ℚ) (c : Card) : Card :=
  if c.song.id = inp.currentSongId ∧ (shouldUpdateTime = true ∨ timeDiff = 0) then
    { c with texture := some (drawPlayerCanvas m c.song true inp.isPlaying
        (playbackProgress inp.currentTime c.song.duration)) }
  else if ¬(c.song.id = inp.currentSongId) ∧ c.texture.isSome = true then
    if (c.texture.map CardCanvas.datasetPlaying).getD false = true then
      { c with texture := some (drawPlayerCanvas m c.song false false 0) }
    else c
  else c

/-- One run of the playback-update effect body. -/
def playbackStep (m : List Char → ℚ) (st : SchedulerState) (inp : PlaybackInput) :
    SchedulerState :=
  let timeDiff := |inp.currentTime - st.lastTime|
  let shouldUpdateTime : Bool := decide ((1/2 : ℚ) ≤ timeDiff)
  { cards := st.cards.map (playbackCardStep m inp shouldUpdateTime timeDiff),
    lastTime := if shouldUpdateTime = true then inp.currentTime else st.lastTime }

/-! ## InputRouter: mouse drag state (MusicSpace.tsx, `onMouseMove` / `onClick`)

Source of the pressed-button branch of `onMouseMove`:
```
const deltaX = e.clientX - lastMouseX;
const deltaY = e.clientY - lastMouseY;
const dragDistance = Math.sqrt(deltaX * deltaX + deltaY * deltaY);
if (dragDistance > 5) {
  hasDragged = true;
  const sensitivity = 0.002;
  sceneRef.current.orbitAngle += deltaX * sensitivity;
  sceneRef.current.orbitPitch = Math.max(-1.2, Math.min(1.2,
    sceneRef.current.orbitPitch + deltaY * sensitivity));
}
lastMouseX = e.clientX;
lastMouseY = e.clientY;
```
The test `Math.sqrt(dx*dx + dy*dy) > 5` is embedded as the equivalent
`25 < dx*dx + dy*dy` (see `drag_threshold_iff`) so the step stays in `ℚ`. -/

/-- Drag-tracking state shared by `onMouseDown`/`onMouseMove`/`onClick`:
last pointer position, the `hasDragged` flag, and the orbit fields of the
scene state the drag mutates. -/
structure MouseDragState where
  lastX : ℚ
  lastY : ℚ
  hasDragged : Bool
  orbitAngle : ℚ
  orbitPitch : ℚ
deriving DecidableEq, Repr

/-- Drag sensitivity constant from the source. -/
def sensitivity : ℚ := 2/1000

/-- One `onMouseMove` event at client position `(x, y)` while a button is
down. -/
def onMouseMoveDown (s : MouseDragState) (x y : ℚ) : MouseDragState :=
  if 25 < (x - s.lastX) * (x - s.lastX) + (y - s.lastY) * (y - s.lastY) then
    { lastX := x, lastY := y, hasDragged := true,
      orbitAngle := s.orbitAngle + (x - s.lastX) * sensitivity,
      orbitPitch := max (-(12/10)) (min (12/10)
        (s.orbitPitch + (y - s.lastY) * sensitivity)) }
  else
    { s with lastX := x, lastY := y }

/-- A whole pressed-button move sequence, folded left to right. -/
def runMouseMoves (s : MouseDragState) (moves : List (ℚ × ℚ)) : MouseDragState :=
  moves.foldl (fun st mv => onMouseMoveDown st mv.1 mv.2) s

/-- State set up by `onMouseDown` at client position `(x, y)` (scene orbit
fields at their initial values `orbitAngle = 0`, `orbitPitch = 0.3`). -/
def initMouseState (x y : ℚ) : MouseDragState :=
  { lastX := x, lastY := y, hasDragged := false, orbitAngle := 0, orbitPitch := 3/10 }

/-- Per-event displacements of a move sequence: each event's client position
minus the previous one (the `deltaX`/`deltaY` the handler computes). -/
def dragSteps : ℚ → ℚ → List (ℚ × ℚ) → List (ℚ × ℚ)
  | _, _, [] => []
  | px, py, (x, y) :: rest => (x - px, y - py) :: dragSteps x y rest

/-- Cumulative Euclidean path length of a move sequence, the quantity the
claim classifies by. -/
noncomputable def cumulativeMovement : ℚ → ℚ → List (ℚ × ℚ) → ℝ
  | _, _, [] => 0
  | px, py, (x, y) :: rest =>
      Real.sqrt (((x - px : ℚ) : ℝ) * ((x - px : ℚ) : ℝ) +
          ((y - py : ℚ) : ℝ) * ((y - py : ℚ) : ℝ)) +
        cumulativeMovement x y rest

/-! ## PickService (MusicSpace.tsx, `onClick` / `onTouchEnd`)

Source:
```
raycaster.setFromCamera(mouse, camera);
const intersects = raycaster.intersectObjects(cardGroup.children, true);
if (intersects.length > 0) {
  let obj = intersects[0].object;
  while (obj.parent && !obj.userData.song) obj = obj.parent;
  if (obj.userData.song) onSelectSong(obj.userData.song);
}
```
`intersectObjects` returns hits sorted by ascending ray distance (the
three.js contract), which the model carries as a sortedness hypothesis.  A
hit object is represented by its `userData.song` and those of its ancestor
chain, nearest parent first. -/

/-- One ray intersection: its distance and the `userData.song` values along
the hit object's parent chain (the object itself first). -/
structure Hit where
  distance : ℚ
  chain : List (Option Song)
deriving DecidableEq, Repr

/-- Parent walk of the pick handler: climb while a parent exists and the
current object carries no song, then return that object's song (if any). -/
def walkUpSong : List (Option Song) → Option Song
  | [] => none
  | [o] => o
  | some s :: _ => some s
  | none :: rest => walkUpSong rest

/-- Selection resolved by a button release: `onClick` returns without
picking when `hasDragged` is set; otherwise the first (nearest) hit is
walked up and its song — when present — is passed to `onSelectSong`.
`none` means the callback does not fire. -/
def onClickSelect (hasDragged : Bool) (intersects : List Hit) : Option Song :=
  if hasDragged = true then none
  else
    match intersects with
    | [] => none
    | h :: _ => walkUpSong h.chain

/-! ## Scene-state fields and the touch-drag branch (MusicSpace.tsx)

The `sceneRef` payload type declares exactly these fields:
`{ scene, camera, renderer, cards, cardGroup, targetZoom, orbitAngle,
orbitPitch }`.  The single-touch branch of `onTouchMove` however writes
```
sceneRef.current.rotationTarget.y += deltaX * 0.002;
sceneRef.current.rotationTarget.x += deltaY * 0.002;
```
-/

/-- Field names of the `sceneRef.current` object type, from its declaration. -/
def sceneStateFields : List String :=
  ["scene", "camera", "renderer", "cards", "cardGroup",
   "targetZoom", "orbitAngle", "orbitPitch"]

/-- Fields the single-touch drag branch of `onTouchMove` writes through. -/
def touchDragWrittenFields : List String := ["rotationTarget"]

/-! ## Cover-image loading (MusicSpace.tsx, `loadAlbumArt`)

Source skeleton:
```
const loadAlbumArt = (url: string, retries = 3) => {
  textureLoader.load(url,
    (texture) => { ...
      if (!img || !img.width || !img.height) {
        if (retries > 0) { setTimeout(() => loadAlbumArt(url, retries - 1), 500); }
        return;
      }
      ... group.add(artMesh); },
    undefined,
    (error) => {
      if (retries > 0) { setTimeout(() => loadAlbumArt(url, retries - 1), 1000); }
    });
};
loadAlbumArt(song.coverUrl);
```
The model consumes one environment outcome per attempt and records the
backoff delay scheduled before each retry.  Exhausting retries yields no
overlay and no error value — the error handler only logs. -/

/-- Outcome the loader environment produces for one fetch attempt. -/
inductive FetchOutcome where
  | fetchError : FetchOutcome
  | decoded (w h : ℕ) : FetchOutcome
deriving DecidableEq, Repr

/-- Cover overlay mesh attached on a successful decode (its raster size). -/
structure ArtOverlay where
  w : ℕ
  h : ℕ
deriving DecidableEq, Repr

/-- Run of `loadAlbumArt` against a sequence of attempt outcomes, returning
the list of scheduled backoff delays (in ms, in order) and the overlay, if
one was ever attached.  An empty outcome list models a load still pending. -/
def loadAlbumArt : List FetchOutcome → ℕ → List ℕ × Option ArtOverlay
  | [], _ => ([], none)
  | FetchOutcome.decoded w h :: rest, retries =>
      if w = 0 ∨ h = 0 then
        if 0 < retries then
          (500 :: (loadAlbumArt rest (retries - 1)).1, (loadAlbumArt rest (retries - 1)).2)
        else ([], none)
      else ([], some ⟨w, h⟩)
  | FetchOutcome.fetchError :: rest, retries =>
      if 0 < retries then
        (1000 :: (loadAlbumArt rest (retries - 1)).1, (loadAlbumArt rest (retries - 1)).2)
      else ([], none)

/-! ## RenderLoop and resize (MusicSpace.tsx, `animate` / `handleResize`)

Per-frame card update:
```
frame += 0.002;
...
cards.forEach((c, i) => {
  const timeOffset = frame + i * 500;
  const basePhi = Math.acos(-1 + (2 * i) / songs.length);
  const baseTheta = Math.sqrt(songs.length * Math.PI) * basePhi;
  const cardRadius = 35 + (i % 3) * 8;
  const baseY = cardRadius * Math.sin(baseTheta) * Math.sin(basePhi);
  c.group.position.y = baseY + Math.sin(timeOffset * 0.2) * 0.5;
  ...
});
```
Resize handler:
```
camera.aspect = window.innerWidth / window.innerHeight;
camera.updateProjectionMatrix();
renderer.setSize(window.innerWidth, window.innerHeight);
```
-/

/-- Build-time `y` coordinate recomputed by the animate loop (`baseY`). -/
noncomputable def baseY (N i : ℕ) : ℝ :=
  (layoutRadius i : ℝ) * Real.sin (layoutTheta N i) * Real.sin (layoutPhi N i)

/-- The `y` the animate loop assigns to card `i` at frame counter value
`frame`: `baseY + sin(timeOffset * 0.2) * 0.5` with `timeOffset = frame + i*500`. -/
noncomputable def animateY (N i : ℕ) (frame : ℝ) : ℝ :=
  baseY N i + Real.sin ((frame + (i : ℝ) * 500) * (2/10)) * (5/10)

/-- Effect of one animate tick on card `i`'s position triple: only the `y`
component is assigned. -/
noncomputable def animateTickPos (N i : ℕ) (frame : ℝ) (p : ℝ × ℝ × ℝ) : ℝ × ℝ × ℝ :=
  (p.1, animateY N i frame, p.2.2)

/-- Camera output state touched by the resize handler. -/
structure CameraView where
  aspect : ℚ
  outW : ℕ
  outH : ℕ
deriving DecidableEq, Repr

/-- Gallery state relevant to resize: the camera view and the entity
positions. -/
structure GalleryView where
  camera : CameraView
  positions : List (ℝ × ℝ × ℝ)

/-- The `handleResize` handler: updates camera aspect and renderer output
size from the new window size; nothing else. -/
def handleResize (g : GalleryView) (w h : ℕ) : GalleryView :=
  { g with camera := { aspect := (w : ℚ) / (h : ℚ), outW := w, outH := h } }

/-! ## Concrete test vectors shared by witnesses and counterexamples -/

/-- Text measure used in concrete evaluations: one pixel per character. -/
def lenMeasure : List Char → ℚ := fun l => (l.length : ℚ)

/-- Concrete media item used as a test vector. -/
def songA : Song where
  id := "a"
  title := ['A', 'l', 'p', 'h', 'a']
  artist := ['A', 'r', 't', 'i', 's', 't']
  album := "Album A"
  coverUrl := "https://example.com/a.jpg"
  duration := 200
  genre := "Pop"

/-- Second concrete media item used as a test vector. -/
def songB : Song where
  id := "b"
  title := ['B', 'e', 't', 'a']
  artist := ['B', 'a', 'n', 'd']
  album := "Album B"
  coverUrl := "https://example.com/b.jpg"
  duration := 100
  genre := "Rock"

/-! ## Helper lemmas -/

/-- Faithfulness of the squared drag-threshold test: the source compares
`Math.sqrt(dx*dx + dy*dy) > 5`, which for rational inputs is the same as
`25 < dx*dx + dy*dy`. -/
theorem drag_threshold_iff (dx dy : ℚ) :
    ((5 : ℝ) < Real.sqrt ((dx : ℝ) * (dx : ℝ) + (dy : ℝ) * (dy : ℝ))) ↔
      25 < dx * dx + dy * dy := by
  rw [Real.lt_sqrt (by norm_num : (0 : ℝ) ≤ 5),
    show ((5 : ℝ)) ^ 2 = 25 by norm_num]
  norm_cast

/-- Unfolding of the move fold over a cons cell. -/
theorem runMouseMoves_cons (s : MouseDragState) (x y : ℚ) (rest : List (ℚ × ℚ)) :
    runMouseMoves s ((x, y) :: rest) = runMouseMoves (onMouseMoveDown s x y) rest := rfl

/-- The `hasDragged` flag after a move sequence is set exactly when it was
already set or some single inter-event displacement exceeds the threshold. -/
theorem runMouseMoves_hasDragged (s : MouseDragState) (moves : List (ℚ × ℚ)) :
    (runMouseMoves s moves).hasDragged = true ↔
      s.hasDragged = true ∨
        ∃ d ∈ dragSteps s.lastX s.lastY moves, 25 < d.1 * d.1 + d.2 * d.2 := by
  induction moves generalizing s with
  | nil => simp [runMouseMoves, dragSteps]
  | cons mv rest ih =>
      obtain ⟨x, y⟩ := mv
      rw [runMouseMoves_cons]
      by_cases h : 25 < (x - s.lastX) * (x - s.lastX) + (y - s.lastY) * (y - s.lastY)
      · have hstep : onMouseMoveDown s x y =
            { lastX := x, lastY := y, hasDragged := true,
              orbitAngle := s.orbitAngle + (x - s.lastX) * sensitivity,
              orbitPitch := max (-(12/10)) (min (12/10)
                (s.orbitPitch + (y - s.lastY) * sensitivity)) } := by
          unfold onMouseMoveDown
          rw [if_pos h]
        rw [hstep, ih]
        simp only [dragSteps, List.mem_cons]
        constructor
        · intro _
          right
          exact ⟨(x - s.lastX, y - s.lastY), Or.inl rfl, h⟩
        · intro _
          exact Or.inl trivial
      · have hstep : onMouseMoveDown s x y = { s with lastX := x, lastY := y } := by
          unfold onMouseMoveDown
          rw [if_neg h]
        rw [hstep, ih]
        simp only [dragSteps, List.mem_cons]
        constructor
        · rintro (hd | ⟨d, hd, hcond⟩)
          · exact Or.inl hd
          · exact Or.inr ⟨d, Or.inr hd, hcond⟩
        · rintro (hd | ⟨d, hd | hd, hcond⟩)
          · exact Or.inl hd
          · subst hd
            exact absurd hcond h
          · exact Or.inr ⟨d, hd, hcond⟩

/-- The orbit-pitch clamp of a single pressed-button move keeps the pitch in
`[-1.2, 1.2]` once it is there. -/
theorem onMouseMoveDown_pitch (s : MouseDragState) (x y : ℚ)
    (hlo : -(12/10) ≤ s.orbitPitch) (hhi : s.orbitPitch ≤ 12/10) :
    -(12/10) ≤ (onMouseMoveDown s x y).orbitPitch ∧
      (onMouseMoveDown s x y).orbitPitch ≤ 12/10 := by
  unfold onMouseMoveDown
  by_cases h : 25 < (x - s.lastX) * (x - s.lastX) + (y - s.lastY) * (y - s.lastY)
  · rw [if_pos h]
    constructor
    · exact le_max_left _ _
    · exact max_le (by norm_num) (min_le_left _ _)
  · rw [if_neg h]
    exact ⟨hlo, hhi⟩

/-- The loop invariant of `truncLoop`: with enough fuel the result either
fits (with the ellipsis appended) or is the empty string. -/
theorem truncLoop_width (m : List Char → ℚ) (maxW : ℚ) (fuel : ℕ) :
    ∀ t : List Char, t.length ≤ fuel →
      m (truncLoop m maxW fuel t ++ ell) ≤ maxW ∨ truncLoop m maxW fuel t = [] := by
  induction fuel with
  | zero =>
      intro t ht
      right
      rw [List.length_eq_zero.mp (Nat.le_zero.mp ht)]
      rfl
  | succ fuel ih =>
      intro t ht
      rw [truncLoop]
      by_cases h : maxW < m (t ++ ell) ∧ t ≠ []
      · rw [if_pos h]
        refine ih t.dropLast ?_
        have hpos : 0 < t.length := List.length_pos.mpr h.2
        rw [List.length_dropLast]
        omega
      · rw [if_neg h]
        rw [not_and_or, not_lt, not_ne_iff] at h
        rcases h with h | h
        · exact Or.inl h
        · exact Or.inr h

/-- Truncated text always fits within `maxW`, provided the bare ellipsis
does (true of any real font at the card's text sizes). -/
theorem truncateText_width (m : List Char → ℚ) (maxW : ℚ) (s : List Char)
    (hell : m ell ≤ maxW) : m (truncateText m maxW s) ≤ maxW := by
  unfold truncateText
  by_cases h : maxW < m s
  · rw [if_pos h]
    rcases truncLoop_width m maxW s.length s le_rfl with h1 | h1
    · exact h1
    · rw [h1]
      simpa using hell
  · rw [if_neg h]
    exact not_lt.mp h

/-- Backoff delays recorded by `loadAlbumArt`: never more than `retries` of
them, each either the 500ms invalid-raster delay or the 1000ms fetch-error
delay. -/
theorem loadAlbumArt_delays (outcomes : List FetchOutcome) :
    ∀ retries : ℕ,
      (loadAlbumArt outcomes retries).1.length ≤ retries ∧
        ∀ d ∈ (loadAlbumArt outcomes retries).1, d = 500 ∨ d = 1000 := by
  induction outcomes with
  | nil =>
      intro retries
      simp [loadAlbumArt]
  | cons o rest ih =>
      intro retries
      cases o with
      | decoded w h =>
          rw [loadAlbumArt]
          by_cases hz : w = 0 ∨ h = 0
          · rw [if_pos hz]
            by_cases hr : 0 < retries
            · rw [if_pos hr]
              obtain ⟨ih1, ih2⟩ := ih (retries - 1)
              refine ⟨by simpa using by omega, ?_⟩
              intro d hd
              rcases List.mem_cons.mp hd with rfl | hd
              · exact Or.inl rfl
              · exact ih2 d hd
            · rw [if_neg hr]
              simp
          · rw [if_neg hz]
            simp
      | fetchError =>
          rw [loadAlbumArt]
          by_cases hr : 0 < retries
          · rw [if_pos hr]
            obtain ⟨ih1, ih2⟩ := ih (retries - 1)
            refine ⟨by simpa using by omega, ?_⟩
            intro d hd
            rcases List.mem_cons.mp hd with rfl | hd
            · exact Or.inr rfl
            · exact ih2 d hd
          · rw [if_neg hr]
            simp

/-- The scheduler step never changes which song a card entity references. -/
theorem playbackCardStep_song (m : List Char → ℚ) (inp : PlaybackInput)
    (b : Bool) (q : ℚ) (c : Card) : (playbackCardStep m inp b q c).song = c.song := by
  unfold playbackCardStep
  split
  · rfl
  · split
    · split
      · rfl
      · rfl
    · rfl

/-! ## Spec-side definitions for refinement claims -/

/-- Modelled from the spec: the Fibonacci-sphere placement of §4.1 —
`φ = acos(−1 + 2i/N)`, `θ = sqrt(N·π)·φ`, `r = 35 + (i mod 3)·8`,
position `r·(cosθ·sinφ, sinθ·sinφ, cosφ)`. -/
noncomputable def specCardPosition (N i : ℕ) : ℝ × ℝ × ℝ :=
  ((35 + (i % 3 : ℕ) * 8) * (Real.cos (Real.sqrt ((N : ℝ) * Real.pi) *
      Real.arccos (-1 + 2 * (i : ℝ) / (N : ℝ))) *
      Real.sin (Real.arccos (-1 + 2 * (i : ℝ) / (N : ℝ)))),
   (35 + (i % 3 : ℕ) * 8) * (Real.sin (Real.sqrt ((N : ℝ) * Real.pi) *
      Real.arccos (-1 + 2 * (i : ℝ) / (N : ℝ))) *
      Real.sin (Real.arccos (-1 + 2 * (i : ℝ) / (N : ℝ)))),
   (35 + (i % 3 : ℕ) * 8) * Real.cos (Real.arccos (-1 + 2 * (i : ℝ) / (N : ℝ))))

/-! ## Claim theorems -/

/-- C1: for every item count `N ≥ 1` and index `0 ≤ i < N`, the layout
places card `i` at `r·(cosθ·sinφ, sinθ·sinφ, cosφ)` with
`φ = acos(−1 + 2i/N)`, `θ = sqrt(N·π)·φ`, `r = 35 + (i mod 3)·8`; the
computation is a pure function of `(N, i)` (hence deterministic), and the
shell radius is exactly one of `{35, 43, 51}`, determined by `i mod 3`. -/
theorem C1_fibonacci_layout (N i : ℕ) (hN : 1 ≤ N) (hi : i < N) :
    cardPosition N i = specCardPosition N i ∧
    cardPosition N i = cardPosition N i ∧
    ((i % 3 = 0 → layoutRadius i = 35) ∧
     (i % 3 = 1 → layoutRadius i = 43) ∧
     (i % 3 = 2 → layoutRadius i = 51)) ∧
    (layoutRadius i = 35 ∨ layoutRadius i = 43 ∨ layoutRadius i = 51) := by
  refine ⟨?_, rfl, ?_, ?_⟩
  · unfold cardPosition specCardPosition layoutRadius layoutTheta layoutPhi
    refine Prod.ext ?_ (Prod.ext ?_ ?_) <;> · push_cast; ring_nf
  · refine ⟨?_, ?_, ?_⟩ <;> · intro h3; simp only [layoutRadius, h3]; norm_num
  · have h3 : i % 3 = 0 ∨ i % 3 = 1 ∨ i % 3 = 2 := by omega
    rcases h3 with h3 | h3 | h3 <;> simp [layoutRadius, h3] <;> norm_num

/-- Witness for C1 at `N = 3`, `i = 1`. -/
theorem C1_fibonacci_layout_witness :
    cardPosition 3 1 = specCardPosition 3 1 ∧
    cardPosition 3 1 = cardPosition 3 1 ∧
    ((1 % 3 = 0 → layoutRadius 1 = 35) ∧
     (1 % 3 = 1 → layoutRadius 1 = 43) ∧
     (1 % 3 = 2 → layoutRadius 1 = 51)) ∧
    (layoutRadius 1 = 35 ∨ layoutRadius 1 = 43 ∨ layoutRadius 1 = 51) :=
  C1_fibonacci_layout 3 1 (by norm_num) (by norm_num)

/-- C10: the progress pushed to the renderer for the active card is
`currentTime` divided by the song duration, with `100` substituted when the
duration is `0` (falsy); the divisor is never zero. -/
theorem C10_progress_divisor_nonzero (currentTime duration : ℚ) :
    progressDivisor duration ≠ 0 ∧
      playbackProgress currentTime duration = currentTime / progressDivisor duration := by
  refine ⟨?_, rfl⟩
  by_cases h : duration = 0 <;> simp [progressDivisor, h]

/-- Counterexample to C4 as stated: a pinch step at `targetZoom = 100` with
raw distance delta `20` yields `110` in the source (base factor `0.5`, no
adaptive multiplier), while the claimed formula — the wheel multiplier
`clamp(z/50, 0.8, 2.5)` applied to the pinch delta — yields `120`. -/
theorem C4_counterexample :
    touchZoomStep 100 20 = 110 ∧ claimedTouchZoomStep 100 20 = 120 ∧
      touchZoomStep 100 20 ≠ claimedTouchZoomStep 100 20 := by
  refine ⟨?_, ?_, ?_⟩ <;>
    norm_num [touchZoomStep, claimedTouchZoomStep, distanceMultiplier]

/-- C4 (amended): wheel steps follow
`rawDelta × 0.12 × clamp(z/50, 0.8, 2.5)` and clamp to `[10, 300]`; pinch
steps add `rawDelta × 0.5` with no adaptive multiplier and clamp to
`[15, 250]`; any sequence of wheel ticks starting in bounds stays within
`[10, 300]`, and a tick at `targetZoom = 10` never goes below `10`. -/
theorem C4_zoom_bounds :
    (∀ z d : ℚ,
        wheelZoomStep z d = max 10 (min 300 (z + d * (12/100) * distanceMultiplier z)) ∧
        10 ≤ wheelZoomStep z d ∧ wheelZoomStep z d ≤ 300) ∧
    (∀ z d : ℚ,
        touchZoomStep z d = max 15 (min 250 (z + d * (1/2))) ∧
        15 ≤ touchZoomStep z d ∧ touchZoomStep z d ≤ 250) ∧
    (∀ (z : ℚ) (ds : List ℚ), 10 ≤ z → z ≤ 300 →
        10 ≤ List.foldl wheelZoomStep z ds ∧ List.foldl wheelZoomStep z ds ≤ 300) ∧
    (∀ d : ℚ, 10 ≤ wheelZoomStep 10 d) := by
  have hw : ∀ z d : ℚ, 10 ≤ wheelZoomStep z d ∧ wheelZoomStep z d ≤ 300 := by
    intro z d
    exact ⟨le_max_left _ _, max_le (by norm_num) (min_le_left _ _)⟩
  refine ⟨fun z d => ⟨rfl, hw z d⟩,
          fun z d => ⟨rfl, le_max_left _ _, max_le (by norm_num) (min_le_left _ _)⟩,
          ?_, fun d => (hw 10 d).1⟩
  intro z ds
  induction ds generalizing z with
  | nil => exact fun h1 h2 => ⟨h1, h2⟩
  | cons d rest ih =>
      intro _ _
      exact ih (wheelZoomStep z d) (hw z d).1 (hw z d).2

/-- Witness for C4 (amended) at `z = 50`, wheel deltas `[100, -300]`. -/
theorem C4_zoom_bounds_witness :
    10 ≤ List.foldl wheelZoomStep 50 [100, -300] ∧
      List.foldl wheelZoomStep 50 [100, -300] ≤ 300 :=
  C4_zoom_bounds.2.2.1 50 [100, -300] (by norm_num) (by norm_num)

/-- Counterexample to C3 as stated: `drawPlayerCanvas` applies no clamp, so
an active card drawn with `progress = 2` gets a fill rect of width
`476 × 2 = 952`, twice the track width — the fill extends outside the
track. -/
theorem C3_counterexample :
    (drawPlayerCanvas lenMeasure songA true false 2).progressFillWidth = some 952 ∧
      progressBarWidth < 952 := by
  constructor
  · norm_num [drawPlayerCanvas, progressBarWidth]
  · norm_num [progressBarWidth]

/-- C3 (amended): the renderer applies no clamping; the fill rect is drawn
exactly when the card is active and `progress > 0`, with width
`trackWidth × progress`.  Consequently for `progress ∈ [0, 1]` the fill
never extends outside the track, a negative `progress` draws no fill, and
no fill is drawn on an inactive card — but `progress > 1` does overflow the
track. -/
theorem C3_progress_fill (m : List Char → ℚ) (song : Song) (active playing : Bool)
    (progress : ℚ) :
    (∀ w, (drawPlayerCanvas m song active playing progress).progressFillWidth = some w →
        active = true ∧ 0 < progress ∧ w = progressBarWidth * progress) ∧
    (0 ≤ progress → progress ≤ 1 →
      ∀ w, (drawPlayerCanvas m song active playing progress).progressFillWidth = some w →
        0 ≤ w ∧ w ≤ progressBarWidth) ∧
    (active = false →
      (drawPlayerCanvas m song active playing progress).progressFillWidth = none) ∧
    (progress ≤ 0 →
      (drawPlayerCanvas m song active playing progress).progressFillWidth = none) := by
  have hfill : (drawPlayerCanvas m song active playing progress).progressFillWidth =
      if active = true ∧ 0 < progress then some (progressBarWidth * progress)
      else none := rfl
  refine ⟨?_, ?_, ?_, ?_⟩
  · intro w hw
    rw [hfill] at hw
    by_cases h : active = true ∧ 0 < progress
    · rw [if_pos h] at hw
      exact ⟨h.1, h.2, (Option.some.injEq _ _).mp hw.symm⟩
    · rw [if_neg h] at hw
      exact absurd hw (by simp)
  · intro h0 h1 w hw
    rw [hfill] at hw
    by_cases h : active = true ∧ 0 < progress
    · rw [if_pos h] at hw
      have hww : w = progressBarWidth * progress := ((Option.some.injEq _ _).mp hw).symm
      subst hww
      constructor
      · exact mul_nonneg (by norm_num [progressBarWidth]) h0
      · calc progressBarWidth * progress ≤ progressBarWidth * 1 := by
              exact mul_le_mul_of_nonneg_left h1 (by norm_num [progressBarWidth])
          _ = progressBarWidth := mul_one _
    · rw [if_neg h] at hw
      exact absurd hw (by simp)
  · intro ha
    rw [hfill, if_neg]
    simp [ha]
  · intro hp
    rw [hfill, if_neg]
    intro h
    exact absurd h.2 (not_lt.mpr hp)

/-- Witness for C3 (amended) at `progress = 1/2` on an active playing card. -/
theorem C3_progress_fill_witness :
    (∀ w, (drawPlayerCanvas lenMeasure songA true true (1/2)).progressFillWidth = some w →
        true = true ∧ 0 < (1/2 : ℚ) ∧ w = progressBarWidth * (1/2)) ∧
    ((0 : ℚ) ≤ 1/2 → (1/2 : ℚ) ≤ 1 →
      ∀ w, (drawPlayerCanvas lenMeasure songA true true (1/2)).progressFillWidth = some w →
        0 ≤ w ∧ w ≤ progressBarWidth) ∧
    (true = false →
      (drawPlayerCanvas lenMeasure songA true true (1/2)).progressFillWidth = none) ∧
    ((1/2 : ℚ) ≤ 0 →
      (drawPlayerCanvas lenMeasure songA true true (1/2)).progressFillWidth = none) :=
  C3_progress_fill lenMeasure songA true true (1/2)

/-- C7: the raster is always exactly 512×760, and the drawn title and
artist, after iterative ellipsis truncation, measure at most
`512 − 36 − 10 = 466` px — provided the bare ellipsis itself measures at
most 466 px under the ambient font metric `m` (true of any real font at
22 px). -/
theorem C7_raster_size_and_truncation (m : List Char → ℚ) (song : Song)
    (active playing : Bool) (progress : ℚ) (hell : m ell ≤ maxTitleWidth) :
    (drawPlayerCanvas m song active playing progress).width = 512 ∧
    (drawPlayerCanvas m song active playing progress).height = 760 ∧
    m (drawPlayerCanvas m song active playing progress).title ≤ maxTitleWidth ∧
    m (drawPlayerCanvas m song active playing progress).artist ≤ maxTitleWidth :=
  ⟨rfl, rfl, truncateText_width m maxTitleWidth song.title hell,
   truncateText_width m maxTitleWidth song.artist hell⟩

/-- Witness for C7 under the one-pixel-per-character metric. -/
theorem C7_raster_size_and_truncation_witness :
    (drawPlayerCanvas lenMeasure songB false false 0).width = 512 ∧
    (drawPlayerCanvas lenMeasure songB false false 0).height = 760 ∧
    lenMeasure (drawPlayerCanvas lenMeasure songB false false 0).title ≤ maxTitleWidth ∧
    lenMeasure (drawPlayerCanvas lenMeasure songB false false 0).artist ≤ maxTitleWidth :=
  C7_raster_size_and_truncation lenMeasure songB false false 0
    (by norm_num [lenMeasure, ell, maxTitleWidth])

/-- A non-current card whose raster has the dataset flag unset is left
untouched by the scheduler step. -/
theorem playbackCardStep_not_current (m : List Char → ℚ) (inp : PlaybackInput)
    (b : Bool) (q : ℚ) (c : Card) (h : ¬(c.song.id = inp.currentSongId))
    (hds : (c.texture.map CardCanvas.datasetPlaying).getD false = false) :
    playbackCardStep m inp b q c = c := by
  unfold playbackCardStep
  rw [if_neg (fun hc => h hc.1)]
  by_cases hs : c.texture.isSome = true
  · rw [if_pos ⟨h, hs⟩, if_neg (by rw [hds]; exact Bool.false_ne_true)]
  · rw [if_neg (fun hc => hs hc.2)]

/-- The current card is skipped when the throttle flag is down and the
media time actually moved. -/
theorem playbackCardStep_current_skip (m : List Char → ℚ) (inp : PlaybackInput)
    (q : ℚ) (c : Card) (h : c.song.id = inp.currentSongId) (hq : ¬(q = 0)) :
    playbackCardStep m inp false q c = c := by
  unfold playbackCardStep
  rw [if_neg ?hone, if_neg ?htwo]
  case hone =>
    rintro ⟨-, hor⟩
    rcases hor with hb | hqq
    · exact Bool.false_ne_true hb
    · exact hq hqq
  case htwo =>
    rintro ⟨hnc, -⟩
    exact hnc h

/-- Card entity for `songA` whose last raster was drawn in the
active-and-playing state. -/
def cardA : Card where
  song := songA
  texture := some (drawPlayerCanvas lenMeasure songA true true (1/20))

/-- Card entity for `songB` whose last raster was drawn inactive. -/
def cardB : Card where
  song := songB
  texture := some (drawPlayerCanvas lenMeasure songB false false 0)

/-- C2 (code bug): `drawPlayerCanvas` never writes `canvas.dataset.playing`,
so the `wasPlaying` check of the playback effect is always false and a card
that just stopped being the active/playing one is never redrawn; likewise
the active-card condition `shouldUpdateTime || timeDiff === 0` ignores flag
transitions, so an active/playing transition with `0 < timeDiff < 0.5` is
dropped.  First conjunct: the dataset flag is false on every produced
raster.  Second: after the current song switches from `a` to `b` with
`timeDiff = 0.2`, card `a` still shows `isActive = true` (and card `b`,
now current, still shows `isActive = false`).  Third: with the current
song unchanged and `isPlaying` flipping to `false` at `timeDiff = 0.2`,
the active card still shows `isPlaying = true`. -/
theorem C2_stale_texture_bug :
    (∀ (m : List Char → ℚ) (song : Song) (active playing : Bool) (progress : ℚ),
        (drawPlayerCanvas m song active playing progress).datasetPlaying = false) ∧
    ((playbackStep lenMeasure { cards := [cardA, cardB], lastTime := 49/5 }
        { currentSongId := "b", isPlaying := true, currentTime := 10 }).cards.map
          (fun c => (c.texture.map CardCanvas.activeFlag).getD false) = [true, false]) ∧
    ((playbackStep lenMeasure { cards := [cardA], lastTime := 49/5 }
        { currentSongId := "a", isPlaying := false, currentTime := 10 }).cards.map
          (fun c => (c.texture.map CardCanvas.playingFlag).getD false) = [true]) := by
  refine ⟨fun m song active playing progress => rfl, ?_, ?_⟩
  all_goals
    have habs : |(10 : ℚ) - 49 / 5| = 1/5 := by
      rw [show (10 : ℚ) - 49/5 = 1/5 by norm_num]
      exact abs_of_pos (by norm_num)
    have hdec : decide ((1/2 : ℚ) ≤ (1/5 : ℚ)) = false := by
      simp only [decide_eq_false_iff_not]
      norm_num
    simp only [playbackStep, habs, hdec, List.map_cons, List.map_nil]
  · rw [playbackCardStep_not_current lenMeasure
          { currentSongId := "b", isPlaying := true, currentTime := 10 }
          false (1/5) cardA (by decide) rfl,
        playbackCardStep_current_skip lenMeasure
          { currentSongId := "b", isPlaying := true, currentTime := 10 }
          (1/5) cardB rfl (by norm_num)]
    rfl
  · rw [playbackCardStep_current_skip lenMeasure
          { currentSongId := "a", isPlaying := false, currentTime := 10 }
          (1/5) cardA rfl (by norm_num)]
    rfl

/-- Counterexample to C9 as stated: two consecutive fetch failures back off
1000ms each — the source retries fetch failures after 1000ms and
zero-dimension decodes after 500ms, not on a 500ms-then-1000ms schedule. -/
theorem C9_counterexample :
    loadAlbumArt [FetchOutcome.fetchError, FetchOutcome.fetchError,
        FetchOutcome.decoded 4 4] 3 = ([1000, 1000], some ⟨4, 4⟩) ∧
      ([1000, 1000] : List ℕ) ≠ [500, 1000] :=
  ⟨rfl, by decide⟩

/-- Boolean failure test for one attempt outcome: a fetch error, or a
decode with a zero dimension. -/
def attemptFails : FetchOutcome → Bool
  | FetchOutcome.fetchError => true
  | FetchOutcome.decoded w h => decide (w = 0) || decide (h = 0)

/-- When every attempt fails, no overlay is ever attached — the preview
stays blank and the model returns no error value (the source handler only
logs). -/
theorem loadAlbumArt_fail_none (outcomes : List FetchOutcome) :
    ∀ retries : ℕ, (∀ o ∈ outcomes, attemptFails o = true) →
      (loadAlbumArt outcomes retries).2 = none := by
  induction outcomes with
  | nil =>
      intro retries _
      rfl
  | cons o rest ih =>
      intro retries hall
      have hrest : ∀ o ∈ rest, attemptFails o = true :=
        fun o ho => hall o (List.mem_cons_of_mem _ ho)
      cases o with
      | decoded w h =>
          rw [loadAlbumArt]
          have hz : w = 0 ∨ h = 0 := by
            have := hall _ (List.mem_cons_self _ _)
            simpa [attemptFails] using this
          rw [if_pos hz]
          by_cases hr : 0 < retries
          · rw [if_pos hr]
            exact ih (retries - 1) hrest
          · rw [if_neg hr]
      | fetchError =>
          rw [loadAlbumArt]
          by_cases hr : 0 < retries
          · rw [if_pos hr]
            exact ih (retries - 1) hrest
          · rw [if_neg hr]

/-- C9 (amended): each cover load schedules at most `retries` (3 at the
call site) retries; every backoff delay is either 500ms (zero-dimension
decode) or 1000ms (fetch failure) — fixed per failure kind, not a
500-then-1000 schedule; when all attempts fail the preview is left blank
with no error surfaced. -/
theorem C9_retry_bounds (outcomes : List FetchOutcome) (retries : ℕ) :
    (loadAlbumArt outcomes retries).1.length ≤ retries ∧
    (∀ d ∈ (loadAlbumArt outcomes retries).1, d = 500 ∨ d = 1000) ∧
    ((∀ o ∈ outcomes, attemptFails o = true) →
      (loadAlbumArt outcomes retries).2 = none) :=
  ⟨(loadAlbumArt_delays outcomes retries).1,
   (loadAlbumArt_delays outcomes retries).2,
   loadAlbumArt_fail_none outcomes retries⟩

/-- Witness for C9 (amended): a fetch failure followed by a zero-width
decode, never succeeding, with the default 3 retries. -/
theorem C9_retry_bounds_witness :
    (loadAlbumArt [FetchOutcome.fetchError, FetchOutcome.decoded 0 1] 3).1.length ≤ 3 ∧
    ((1000 : ℕ) = 500 ∨ (1000 : ℕ) = 1000) ∧
    (loadAlbumArt [FetchOutcome.fetchError, FetchOutcome.decoded 0 1] 3).2 = none :=
  ⟨(C9_retry_bounds [FetchOutcome.fetchError, FetchOutcome.decoded 0 1] 3).1,
   (C9_retry_bounds [FetchOutcome.fetchError, FetchOutcome.decoded 0 1] 3).2.1
     1000 (by decide),
   (C9_retry_bounds [FetchOutcome.fetchError, FetchOutcome.decoded 0 1] 3).2.2
     (by decide)⟩

/-- Counterexample to C5 as stated: two consecutive moves of 4px each give
a cumulative movement of 8px > 5px, yet `hasDragged` stays `false` — the
source tests each single inter-event displacement against 5px, never the
cumulative movement, so per the claim this gesture should be a drag but the
code classifies it as a click. -/
theorem C5_counterexample :
    (runMouseMoves (initMouseState 0 0) [(4, 0), (8, 0)]).hasDragged = false ∧
      cumulativeMovement 0 0 [(4, 0), (8, 0)] = 8 ∧ (5 : ℝ) < 8 := by
  have hs : Real.sqrt 16 = 4 := by
    rw [show (16 : ℝ) = 4 ^ 2 by norm_num, Real.sqrt_sq (by norm_num : (0 : ℝ) ≤ 4)]
  have h1 : onMouseMoveDown (initMouseState 0 0) 4 0 =
      { lastX := 4, lastY := 0, hasDragged := false, orbitAngle := 0,
        orbitPitch := 3/10 } := by
    unfold initMouseState onMouseMoveDown
    rw [if_neg (by norm_num)]
  have h2 : onMouseMoveDown
      { lastX := 4, lastY := 0, hasDragged := false, orbitAngle := 0,
        orbitPitch := 3/10 } 8 0 =
      { lastX := 8, lastY := 0, hasDragged := false, orbitAngle := 0,
        orbitPitch := 3/10 } := by
    unfold onMouseMoveDown
    rw [if_neg (by norm_num)]
  refine ⟨?_, ?_, by norm_num⟩
  · show (onMouseMoveDown (onMouseMoveDown (initMouseState 0 0) 4 0) 8 0).hasDragged = false
    rw [h1, h2]
  · simp only [cumulativeMovement]
    push_cast
    norm_num [hs]

/-- Sample hit used by witnesses: a mesh with no own `userData.song` whose
parent group carries `songA`. -/
def demoHit : Hit where
  distance := 1
  chain := [none, some songA]

/-- C5 (amended): a gesture is classified as a drag iff some single
inter-event displacement exceeds 5px (per-event, not cumulative); a
release without drag picks via the ray: no intersection means no callback,
a drag suppresses the callback, and otherwise the first hit — minimal in
distance, as `intersectObjects` returns hits distance-sorted — is walked
up to its owning entity, whose song is reported exactly once. -/
theorem C5_gesture_and_pick (s0 : MouseDragState) (moves : List (ℚ × ℚ))
    (intersects : List Hit) (h0 : s0.hasDragged = false)
    (hsorted : intersects.Sorted (fun a b => a.distance ≤ b.distance)) :
    ((runMouseMoves s0 moves).hasDragged = true ↔
      ∃ d ∈ dragSteps s0.lastX s0.lastY moves,
        (5 : ℝ) < Real.sqrt ((d.1 : ℝ) * (d.1 : ℝ) + (d.2 : ℝ) * (d.2 : ℝ))) ∧
    (intersects = [] →
      onClickSelect (runMouseMoves s0 moves).hasDragged intersects = none) ∧
    ((runMouseMoves s0 moves).hasDragged = true →
      onClickSelect (runMouseMoves s0 moves).hasDragged intersects = none) ∧
    (∀ h t, intersects = h :: t → (runMouseMoves s0 moves).hasDragged = false →
      onClickSelect (runMouseMoves s0 moves).hasDragged intersects = walkUpSong h.chain ∧
      ∀ h' ∈ intersects, h.distance ≤ h'.distance) := by
  refine ⟨?_, ?_, ?_, ?_⟩
  · rw [runMouseMoves_hasDragged, h0]
    simp only [Bool.false_eq_true, false_or]
    exact exists_congr fun d =>
      and_congr_right fun _ => (drag_threshold_iff d.1 d.2).symm
  · intro he
    subst he
    unfold onClickSelect
    split <;> rfl
  · intro hd
    unfold onClickSelect
    rw [if_pos hd]
  · intro h t hint hnd
    subst hint
    refine ⟨?_, ?_⟩
    · rw [hnd]
      rfl
    · intro h' hh'
      rcases List.mem_cons.mp hh' with rfl | hh'
      · exact le_refl _
      · exact List.rel_of_sorted_cons hsorted h' hh'

/-- Witness for C5 (amended): a single 10px move, then a release over one
distance-1 hit whose parent owns `songA`. -/
theorem C5_gesture_and_pick_witness :
    ((runMouseMoves (initMouseState 0 0) [(10, 0)]).hasDragged = true ↔
      ∃ d ∈ dragSteps (initMouseState 0 0).lastX (initMouseState 0 0).lastY
          [((10 : ℚ), (0 : ℚ))],
        (5 : ℝ) < Real.sqrt ((d.1 : ℝ) * (d.1 : ℝ) + (d.2 : ℝ) * (d.2 : ℝ))) ∧
    ([demoHit] = [] →
      onClickSelect (runMouseMoves (initMouseState 0 0) [(10, 0)]).hasDragged
        [demoHit] = none) ∧
    ((runMouseMoves (initMouseState 0 0) [(10, 0)]).hasDragged = true →
      onClickSelect (runMouseMoves (initMouseState 0 0) [(10, 0)]).hasDragged
        [demoHit] = none) ∧
    (∀ h t, [demoHit] = h :: t →
      (runMouseMoves (initMouseState 0 0) [(10, 0)]).hasDragged = false →
      onClickSelect (runMouseMoves (initMouseState 0 0) [(10, 0)]).hasDragged
          [demoHit] = walkUpSong h.chain ∧
        ∀ h' ∈ [demoHit], h.distance ≤ h'.distance) :=
  C5_gesture_and_pick (initMouseState 0 0) [(10, 0)] [demoHit] rfl
    (List.sorted_singleton demoHit)

/-- C6 (code bug): the single-touch drag branch of `onTouchMove` writes
through `rotationTarget`, a field that does not exist on the declared
scene-state type — touch drags do not update the `orbitAngle`/`orbitPitch`
state the mouse path uses (first conjunct).  On the mouse path the claim
holds: any drag sequence keeps the clamped `orbitPitch` within
`[-1.2, 1.2]` (second conjunct). -/
theorem C6_touch_orbit_mismatch :
    ("rotationTarget" ∈ touchDragWrittenFields ∧
      "rotationTarget" ∉ sceneStateFields) ∧
    (∀ (s : MouseDragState) (moves : List (ℚ × ℚ)),
      -(12/10) ≤ s.orbitPitch → s.orbitPitch ≤ 12/10 →
        -(12/10) ≤ (runMouseMoves s moves).orbitPitch ∧
          (runMouseMoves s moves).orbitPitch ≤ 12/10) := by
  refine ⟨⟨by decide, by decide⟩, ?_⟩
  intro s moves
  induction moves generalizing s with
  | nil => exact fun h1 h2 => ⟨h1, h2⟩
  | cons mv rest ih =>
      intro h1 h2
      obtain ⟨x, y⟩ := mv
      rw [runMouseMoves_cons]
      exact ih _ (onMouseMoveDown_pitch s x y h1 h2).1
        (onMouseMoveDown_pitch s x y h1 h2).2

/-- Witness for C6 at the initial mouse state (`orbitPitch = 0.3`) and one
10px horizontal move. -/
theorem C6_touch_orbit_mismatch_witness :
    -(12/10 : ℚ) ≤ (runMouseMoves (initMouseState 0 0) [(10, 0)]).orbitPitch ∧
      (runMouseMoves (initMouseState 0 0) [(10, 0)]).orbitPitch ≤ 12/10 :=
  C6_touch_orbit_mismatch.2 (initMouseState 0 0) [(10, 0)]
    (by norm_num [initMouseState]) (by norm_num [initMouseState])

/-- Counterexample to C8 as stated: the render loop reassigns
`group.position.y` every tick (`baseY + sin(timeOffset*0.2)*0.5`), so after
the first animate tick (frame counter `0.002`) card `0` of a 1-card scene
no longer sits at its build position: its build `y` is `0`
(`φ = acos(−1) = π`), while the tick sets `y = sin(0.0004)·0.5 > 0`. -/
theorem C8_counterexample :
    animateTickPos 1 0 (1/500) (cardPosition 1 0) ≠ cardPosition 1 0 := by
  have hφ : layoutPhi 1 0 = Real.pi := by
    unfold layoutPhi
    norm_num [Real.arccos_neg_one]
  have hy : (cardPosition 1 0).2.1 = 0 := by
    show (layoutRadius 0 : ℝ) * Real.sin (layoutTheta 1 0) * Real.sin (layoutPhi 1 0) = 0
    rw [hφ, Real.sin_pi, mul_zero]
  have hbase : baseY 1 0 = 0 := by
    unfold baseY
    rw [hφ, Real.sin_pi, mul_zero]
  have harg : ((1/500 : ℝ) + ((0 : ℕ) : ℝ) * 500) * (2/10) = 1/2500 := by
    norm_num
  have hsin : 0 < Real.sin (((1/500 : ℝ) + ((0 : ℕ) : ℝ) * 500) * (2/10)) := by
    rw [harg]
    exact Real.sin_pos_of_pos_of_lt_pi (by norm_num)
      (lt_trans (by norm_num) Real.pi_gt_three)
  intro hEq
  have h2 : animateY 1 0 (1/500) = (cardPosition 1 0).2.1 := by
    have := congrArg (fun p => p.2.1) hEq
    simpa [animateTickPos] using this
  rw [hy] at h2
  unfold animateY at h2
  rw [hbase] at h2
  nlinarith [hsin]

/-- C8 (amended): the `x` and `z` components of an entity position are
assigned once at build and never touched again, but the render loop
reassigns the `y` component every tick to the build value plus a bob offset
of magnitude at most `0.5`; viewport resize updates only the camera aspect
and output size, and playback updates only retexture cards, never moving
them. -/
theorem C8_positions_amended (N i : ℕ) (frame : ℝ) (p : ℝ × ℝ × ℝ)
    (g : GalleryView) (w h : ℕ) (m : List Char → ℚ) (st : SchedulerState)
    (inp : PlaybackInput) :
    (animateTickPos N i frame p).1 = p.1 ∧
    (animateTickPos N i frame p).2.2 = p.2.2 ∧
    |(animateTickPos N i frame p).2.1 - baseY N i| ≤ 1/2 ∧
    (handleResize g w h).positions = g.positions ∧
    (handleResize g w h).camera.aspect = (w : ℚ) / (h : ℚ) ∧
    (playbackStep m st inp).cards.map Card.song = st.cards.map Card.song := by
  refine ⟨rfl, rfl, ?_, rfl, rfl, ?_⟩
  · show |baseY N i + Real.sin ((frame + (i : ℝ) * 500) * (2/10)) * (5/10) -
      baseY N i| ≤ 1/2
    rw [show baseY N i + Real.sin ((frame + (i : ℝ) * 500) * (2/10)) * (5/10) -
        baseY N i = Real.sin ((frame + (i : ℝ) * 500) * (2/10)) * (5/10) by ring,
      abs_mul]
    have hsin : |Real.sin ((frame + (i : ℝ) * 500) * (2/10))| ≤ 1 :=
      abs_le.mpr ⟨Real.neg_one_le_sin _, Real.sin_le_one _⟩
    calc |Real.sin ((frame + (i : ℝ) * 500) * (2/10))| * |(5/10 : ℝ)|
        ≤ 1 * |(5/10 : ℝ)| := mul_le_mul_of_nonneg_right hsin (abs_nonneg _)
      _ ≤ 1/2 := by
          rw [one_mul, abs_of_pos (by norm_num : (0 : ℝ) < 5/10)]
          norm_num
  · simp only [playbackStep]
    rw [List.map_map]
    exact List.map_congr_left fun c _ => playbackCardStep_song _ _ _ _ c

end TuneScape
